import Mathlib

/-!
# Account workflow handlers (`src/handler.js`)

A shallow embedding of the seven request handlers of `src/handler.js` and the
properties of their call sequences, responses and fault handling.

The handlers are thin sequences of calls into two external collaborators, the
identity provider (`firebase/auth`, `firebase-admin`) and the profile store
(`firebase/firestore`).  The collaborators are not part of the repository, so
they are a parameter of the embedding: a record `Collaborators σ` of state
transformers over an arbitrary world state `σ`, each returning a value or a
fault.  A handler is run against such a record; the run yields the handler's
result (a reply or a raised fault), the final world, the log of collaborator
calls with their outcomes, and the value of `request.user`.

Conventions of the embedding:

* `await f(...)` of a rejected promise is a raised fault; `try`/`catch` is
  `Eff.tryCatch`, and the state reached before the fault is kept.
* `request.payload` is an object; a field it does not have reads as `undefined`.
  Path parameters and provider uids are strings, so `user.uid === uid` is
  equality of strings.
* `doc(db, ...)` and `collection(db, ...)` build references locally.  On a uid
  issued by the identity provider (Register, EditProfile after the uid check) the
  reference is the plain path.  GetProfile passes the caller's path `uid`; there
  the reference is resolved by the store client, `Collaborators.doc`, which can
  raise.  `doc(collectionRef)` draws its key from the collaborators' `autoId`.
* `console.log` / `console.error` only write to the process log; they take no
  part in the reply or in the collaborator traffic and are left out.
* JSON numbers are represented by integers; the handlers only pass them on or
  test them for truthiness.
-/

namespace Trackori

/-! ## Values -/

/-- JavaScript values as far as the handlers see them: JSON data of payloads and
response bodies, `undefined` for a missing property, and function values (the
module imports functions and line 146 stores one in a response body). -/
inductive Val where
  | undefined
  | null
  | bool (b : Bool)
  | num (n : Int)
  | str (s : String)
  | fn (name : String)
  | obj (fields : List (String × Val))
deriving Repr

/-- JavaScript `ToBoolean`, the test performed by `if (email)`. -/
def Val.truthy : Val → Bool
  | .undefined => false
  | .null => false
  | .bool b => b
  | .num n => n != 0
  | .str s => s != ""
  | .fn _ => true
  | .obj _ => true

/-- Property lookup in a field list; a missing property reads as `undefined`. -/
def lookupField (k : String) : List (String × Val) → Val
  | [] => .undefined
  | (k', v) :: rest => if k' = k then v else lookupField k rest

/-- Property access `v.k` on an object value. -/
def Val.get (v : Val) (k : String) : Val :=
  match v with
  | .obj fields => lookupField k fields
  | _ => .undefined

/-- Whether a value is a JavaScript string. -/
def Val.isString : Val → Bool
  | .str _ => true
  | _ => false

/-! ## Faults -/

/-- A thrown value.  `thrown` is an error raised by a collaborator, with the
string held by its `code` property (if any) and its message; `boom` is an HTTP
error built by `@hapi/boom`, which has no `code` property. -/
inductive Fault where
  | thrown (code : Option String) (message : String)
  | boom (statusCode : Nat) (message : String)
deriving DecidableEq, Repr

/-- The property `error.code`. -/
def Fault.code : Fault → Option String
  | .thrown c _ => c
  | .boom _ _ => none

/-- The error `Boom.unauthorized(message)`: HTTP status 401. -/
def Boom.unauthorized (message : String) : Fault := .boom 401 message

/-! ## Collaborators -/

/-- The `user` of a provider credential: only `uid` and `email` are read. -/
structure User where
  uid : String
  email : Val
deriving Repr

/-- A Firestore document reference: the path of its collection and its key. -/
structure DocRef where
  collection : List String
  id : String
deriving DecidableEq, Repr

/-- A Firestore collection reference `collection(db, ...segments)`. -/
def collection (segments : List String) : List String := segments

/-- The document reference `doc(db, coll, id)` for a key `id` issued by the
identity provider: such a key is one non-empty path segment, and the reference
is `coll/id`.  For a key chosen by the caller the reference is resolved by the
store client, `Collaborators.doc`. -/
def doc (coll : String) (id : String) : DocRef := ⟨[coll], id⟩

/-- A collaborator call, as it appears in the log of a run. -/
inductive Call where
  | createUserWithEmailAndPassword (email password : Val)
  | signInWithEmailAndPassword (email password : Val)
  | getIdToken (user : User)
  | verifyIdToken (idToken : Val)
  | signOut
  | updateEmail (user : User) (newEmail : Val)
  | updatePassword (user : User) (newPassword : Val)
  | sendPasswordResetEmail (email : Val)
  | setDoc (ref : DocRef) (data : Val)
  | getDoc (ref : DocRef)
  | updateDoc (ref : DocRef) (data : Val)
deriving Repr

/-- A logged call together with the fault it raised, if it raised one. -/
structure Event where
  call : Call
  fault : Option Fault
deriving Repr

/-- The two external collaborators over a world state `σ`.  Every operation
returns its result or a fault, and the next world.  `autoId` is the local key
generator behind `doc(collectionRef)`.  `doc` is the store client's resolution
of `doc(db, coll, path)` for an arbitrary string `path`: it is local, reads no
state, and either yields the reference the path names or raises. -/
structure Collaborators (σ : Type) where
  createUserWithEmailAndPassword : Val → Val → σ → Except Fault User × σ
  signInWithEmailAndPassword : Val → Val → σ → Except Fault User × σ
  getIdToken : User → σ → Except Fault String × σ
  verifyIdToken : Val → σ → Except Fault Val × σ
  signOut : σ → Except Fault Unit × σ
  updateEmail : User → Val → σ → Except Fault Unit × σ
  updatePassword : User → Val → σ → Except Fault Unit × σ
  sendPasswordResetEmail : Val → σ → Except Fault Unit × σ
  autoId : List String → σ → String × σ
  doc : String → String → Except Fault DocRef
  setDoc : DocRef → Val → σ → Except Fault Unit × σ
  getDoc : DocRef → σ → Except Fault (Option (List (String × Val))) × σ
  updateDoc : DocRef → Val → σ → Except Fault Unit × σ

/-! ## The handler monad -/

/-- The state of a run: the collaborators' world, the log of calls made so far
and the mutable property `request.user`. -/
structure St (σ : Type) where
  world : σ
  trace : List Event
  user : Val

/-- An `async` function body: it maps a state to a result or a raised fault,
and the state reached. -/
def Eff (σ α : Type) : Type := St σ → Except Fault α × St σ

/-- Sequencing, `await`: a fault of the first part skips the rest. -/
def Eff.bind {σ α β : Type} (m : Eff σ α) (f : α → Eff σ β) : Eff σ β := fun s =>
  match m s with
  | (.ok a, s') => f a s'
  | (.error e, s') => (.error e, s')

instance {σ : Type} : Monad (Eff σ) where
  pure a := fun s => (.ok a, s)
  bind := Eff.bind

/-- The statement `throw error`. -/
def Eff.throw {σ α : Type} (e : Fault) : Eff σ α := fun s => (.error e, s)

/-- The statement `try { body } catch (error) { handler }`. -/
def Eff.tryCatch {σ α : Type} (body : Eff σ α) (handler : Fault → Eff σ α) : Eff σ α := fun s =>
  match body s with
  | (.ok a, s') => (.ok a, s')
  | (.error e, s') => handler e s'

/-- The fault carried by a result. -/
def faultOf {α : Type} : Except Fault α → Option Fault
  | .ok _ => none
  | .error e => some e

/-- An awaited collaborator call: run it on the world and log it. -/
def Eff.call {σ α : Type} (c : Call) (op : σ → Except Fault α × σ) : Eff σ α := fun s =>
  match op s.world with
  | (r, w) => (r, { s with world := w, trace := s.trace ++ [⟨c, faultOf r⟩] })

/-- The key generation of `doc(collectionRef)`: local, never faults, not logged. -/
def Eff.autoDoc {σ : Type} (c : Collaborators σ) (coll : List String) : Eff σ DocRef := fun s =>
  match c.autoId coll s.world with
  | (k, w) => (.ok ⟨coll, k⟩, { s with world := w })

/-- A local computation that may throw: its result or fault, the state kept. -/
def Eff.resolve {σ α : Type} (r : Except Fault α) : Eff σ α := fun s => (r, s)

/-- The assignment `request.user = v`. -/
def Eff.setRequestUser {σ : Type} (v : Val) : Eff σ Unit := fun s =>
  (.ok (), { s with user := v })

/-! ## Requests and replies -/

/-- The payload fields read by the handlers; an absent field is `undefined`. -/
structure Payload where
  email : Val
  password : Val
  currentEmail : Val
  currentPassword : Val

/-- The parts of a hapi request read by the handlers. -/
structure Request where
  uid : String
  payload : Payload
  authorization : Val

/-- What a handler returns: `h.response(source).code(statusCode)`, or the
signal `h.continue`. -/
inductive Reply where
  | response (source : Val) (statusCode : Nat)
  | h_continue
deriving Repr

/-- The status code of a reply, if it is a response. -/
def Reply.status : Reply → Option Nat
  | .response _ n => some n
  | .h_continue => none

/-- The body of a reply (`undefined` for the continue signal). -/
def Reply.body : Reply → Val
  | .response b _ => b
  | .h_continue => .undefined

/-! ## The handlers -/

/-- User register: `registerHandler`, lines 23-52. -/
def registerHandler {σ : Type} (c : Collaborators σ) (request : Request) : Eff σ Reply :=
  let email := request.payload.email
  let password := request.payload.password
  Eff.tryCatch
    (do
      let user ← Eff.call (.createUserWithEmailAndPassword email password)
        (c.createUserWithEmailAndPassword email password)
      let userDoc := doc "users" user.uid
      Eff.call (.setDoc userDoc (.obj [("email", email)]))
        (c.setDoc userDoc (.obj [("email", email)]))
      let foodsCollection := collection ["users", user.uid, "foods-history"]
      let newFoodDoc ← Eff.autoDoc c foodsCollection
      Eff.call (.setDoc newFoodDoc (.obj [("userID", .str user.uid)]))
        (c.setDoc newFoodDoc (.obj [("userID", .str user.uid)]))
      return .response (.obj [("success", .bool true),
        ("message", .str "User registered successfully"),
        ("data", .obj [("uid", .str user.uid), ("email", user.email)])]) 201)
    (fun error =>
      if error.code = some "auth/email-already-in-use" then
        pure (.response (.obj [("success", .bool false),
          ("message", .str "The email address is already in use")]) 400)
      else
        Eff.throw error)

/-- User login: `loginHandler`, lines 55-75. -/
def loginHandler {σ : Type} (c : Collaborators σ) (request : Request) : Eff σ Reply :=
  let email := request.payload.email
  let password := request.payload.password
  Eff.tryCatch
    (do
      let user ← Eff.call (.signInWithEmailAndPassword email password)
        (c.signInWithEmailAndPassword email password)
      let idToken ← Eff.call (.getIdToken user) (c.getIdToken user)
      return .response (.obj [("success", .bool true),
        ("message", .str "Login Successfully"),
        ("data", .obj [("uid", .str user.uid), ("email", user.email),
          ("accessToken", .str idToken)])]) 200)
    (fun error =>
      if error.code = some "auth/user-not-found" then
        pure (.response (.obj [("success", .bool false),
          ("message", .str "User not found")]) 400)
      else if error.code = some "auth/wrong-password" then
        pure (.response (.obj [("success", .bool false),
          ("message", .str "Email and password does not match")]) 401)
      else
        Eff.throw error)

/-- Verifying the user token: `verifyTokenHandler`, lines 78-90. -/
def verifyTokenHandler {σ : Type} (c : Collaborators σ) (request : Request) : Eff σ Reply :=
  let idToken := request.authorization
  Eff.tryCatch
    (do
      let decodedToken ← Eff.call (.verifyIdToken idToken) (c.verifyIdToken idToken)
      Eff.setRequestUser decodedToken
      return .h_continue)
    (fun _ => Eff.throw (Boom.unauthorized "Invalid token"))

/-- User logout: `logoutHandler`, lines 93-103. -/
def logoutHandler {σ : Type} (c : Collaborators σ) (_request : Request) : Eff σ Reply :=
  Eff.tryCatch
    (do
      Eff.call .signOut c.signOut
      return .response (.obj [("success", .bool true),
        ("message", .str "Logged out successfully")]) 200)
    (fun _ =>
      pure (.response (.obj [("success", .bool false),
        ("message", .str "Something went wrong")]) 400))

/-- Get user info by id: `getUserByIdHandler`, lines 106-123.  The path `uid` is
the caller's, so the reference `doc(db, 'users', uid)` on line 110 is resolved by
the store client, inside the `try`. -/
def getUserByIdHandler {σ : Type} (c : Collaborators σ) (request : Request) : Eff σ Reply :=
  let uid := request.uid
  Eff.tryCatch
    (do
      let userDoc ← Eff.resolve (c.doc "users" uid)
      let docSnap ← Eff.call (.getDoc userDoc) (c.getDoc userDoc)
      match docSnap with
      | some data =>
        return .response (.obj [("success", .bool true),
          ("message", .str "Success fetching user data"),
          ("data", .obj [("uid", .str uid), ("email", lookupField "email" data)])]) 200
      | none =>
        return .response (.obj [("success", .bool false),
          ("message", .str "User not found")]) 404)
    (fun _ =>
      pure (.response (.obj [("success", .bool false),
        ("message", .str "Error fetching user data")]) 500))

/-- Edit user data, email and password: `editUserDataHandler`, lines 126-160.
The value stored under `data.email` on line 146 is the imported function
`isSignInWithEmailLink`. -/
def editUserDataHandler {σ : Type} (c : Collaborators σ) (request : Request) : Eff σ Reply :=
  let uid := request.uid
  let email := request.payload.email
  let password := request.payload.password
  let currentEmail := request.payload.currentEmail
  let currentPassword := request.payload.currentPassword
  Eff.tryCatch
    (do
      let user ← Eff.call (.signInWithEmailAndPassword currentEmail currentPassword)
        (c.signInWithEmailAndPassword currentEmail currentPassword)
      if user.uid = uid then
        let userDoc := doc "users" uid
        let updateData : List (String × Val) := if email.truthy then [("email", email)] else []
        Eff.call (.updateDoc userDoc (.obj updateData)) (c.updateDoc userDoc (.obj updateData))
        if email.truthy then
          Eff.call (.updateEmail user email) (c.updateEmail user email)
        if password.truthy then
          Eff.call (.updatePassword user password) (c.updatePassword user password)
        return .response (.obj [("success", .bool true),
          ("message", .str "Profile updated successfully"),
          ("data", .obj [("uid", .str uid), ("email", .fn "isSignInWithEmailLink")])]) 200
      else
        return .response (.obj [("success", .bool false),
          ("message", .str "You don't have permission to edit this account")]) 403)
    (fun error =>
      if error.code = some "auth/user-not-found" then
        pure (.response (.obj [("success", .bool false),
          ("message", .str "User not found")]) 400)
      else
        Eff.throw error)

/-- Reset user password: `resetPasswordHandler`, lines 163-179. -/
def resetPasswordHandler {σ : Type} (c : Collaborators σ) (request : Request) : Eff σ Reply :=
  let email := request.payload.email
  Eff.tryCatch
    (do
      Eff.call (.sendPasswordResetEmail email) (c.sendPasswordResetEmail email)
      return .response (.obj [("success", .bool true),
        ("message", .str "We have sent email to reset your password"),
        ("data", .obj [("email", email)])]) 200)
    (fun error =>
      if error.code = some "auth/user-not-found" then
        pure (.response (.obj [("success", .bool false),
          ("message", .str "User not found")]) 404)
      else
        Eff.throw error)

/-! ## Runs -/

/-- The state in which a handler starts: world `w`, an empty call log, and the
value `u` of `request.user` left by the pipeline so far. -/
def St.start {σ : Type} (w : σ) (u : Val) : St σ := ⟨w, [], u⟩

/-- Some collaborator call of the run raised the fault `e`. -/
def raised {σ α : Type} (r : Except Fault α × St σ) (e : Fault) : Prop :=
  ∃ ev ∈ r.2.trace, ev.fault = some e

/-- The calls of a run, in order, without their outcomes. -/
def calls {σ α : Type} (r : Except Fault α × St σ) : List Call :=
  r.2.trace.map Event.call

/-- No collaborator call of the run raised a fault. -/
def faultFree {σ α : Type} (r : Except Fault α × St σ) : Prop :=
  ∀ ev ∈ r.2.trace, ev.fault = none

/-! ## An in-memory pair of collaborators

A small executable identity provider and profile store, used to run the handlers
on concrete requests. -/

/-- An account of the in-memory identity provider. -/
structure Account where
  uid : String
  email : String
  password : String
deriving DecidableEq, Repr

/-- The world of the in-memory collaborators: a connectivity switch, the
accounts, the stored documents, and the supply of fresh identifiers. -/
structure Mem where
  online : Bool
  accounts : List Account
  docs : List (DocRef × List (String × Val))
  fresh : List String

/-- The fault of an unreachable identity provider. -/
def Mem.authDown : Fault := .thrown (some "auth/network-request-failed") "network error"

/-- The fault of an unreachable store. -/
def Mem.storeDown : Fault := .thrown (some "unavailable") "store unreachable"

/-- The stored fields of a document. -/
def Mem.find (ref : DocRef) : List (DocRef × List (String × Val)) → Option (List (String × Val))
  | [] => none
  | (r, fields) :: rest => if r = ref then some fields else Mem.find ref rest

/-- Replace the fields of a stored document. -/
def Mem.replace (ref : DocRef) (fields : List (String × Val)) :
    List (DocRef × List (String × Val)) → List (DocRef × List (String × Val))
  | [] => []
  | (r, old) :: rest =>
    if r = ref then (r, fields) :: rest else (r, old) :: Mem.replace ref fields rest

/-- A partial update: the given fields, then the old fields not overwritten. -/
def Mem.merge (fields old : List (String × Val)) : List (String × Val) :=
  fields ++ old.filter (fun kv => (fields.map Prod.fst).all (fun k => k != kv.1))

/-- The pieces of a path between its slashes; `cur` is the piece being read,
reversed. -/
def Mem.splitSlash : List Char → List Char → List (List Char)
  | [], cur => [cur.reverse]
  | ch :: rest, cur =>
    if ch = '/' then cur.reverse :: Mem.splitSlash rest [] else Mem.splitSlash rest (ch :: cur)

/-- The non-empty segments of a path. -/
def Mem.segments (path : String) : List String :=
  ((Mem.splitSlash path.data []).filter (fun seg => !seg.isEmpty)).map String.mk

/-- Whether a path contains two slashes in a row. -/
def Mem.doubleSlash : List Char → Bool
  | a :: b :: rest => (a == '/' && b == '/') || Mem.doubleSlash (b :: rest)
  | _ => false

/-- The fault of a path that names no document. -/
def Mem.badPath : Fault := .thrown (some "invalid-argument") "invalid document reference"

/-- The resolution of `doc(db, coll, path)`: a path with `//` is refused, empty
segments are dropped, and the segments of `coll` and `path` together must be
even in number; the last one is the key, the others the collection. -/
def Mem.doc (coll path : String) : Except Fault DocRef :=
  if coll == "" || Mem.doubleSlash coll.data || Mem.doubleSlash path.data then
    .error Mem.badPath
  else
    match (Mem.segments coll ++ Mem.segments path).reverse with
    | [] => .error Mem.badPath
    | id :: parents =>
      if (parents.length + 1) % 2 = 0 then .ok ⟨parents.reverse, id⟩ else .error Mem.badPath

/-- An address in lower case. -/
def Mem.lower : Val → Val
  | .str s => .str (String.mk (s.data.map Char.toLower))
  | v => v

/-- The account with a given email. -/
def Mem.byEmail (email : String) : List Account → Option Account
  | [] => none
  | a :: rest => if a.email = email then some a else Mem.byEmail email rest

/-- The account with a given uid. -/
def Mem.byUid (uid : String) : List Account → Option Account
  | [] => none
  | a :: rest => if a.uid = uid then some a else Mem.byUid uid rest

/-- Apply a change to the account with a given uid. -/
def Mem.amend (uid : String) (f : Account → Account) : List Account → List Account
  | [] => []
  | a :: rest => if a.uid = uid then f a :: rest else a :: Mem.amend uid f rest

/-- The in-memory collaborators. -/
def memory : Collaborators Mem where
  createUserWithEmailAndPassword := fun email password w =>
    if w.online then
      match email, password, w.fresh with
      | .str e, .str p, uid :: more =>
        match Mem.byEmail e w.accounts with
        | some _ => (.error (.thrown (some "auth/email-already-in-use") "email in use"), w)
        | none => (.ok ⟨uid, .str e⟩,
            { w with accounts := w.accounts ++ [⟨uid, e, p⟩], fresh := more })
      | _, _, _ => (.error (.thrown (some "auth/invalid-email") "invalid argument"), w)
    else (.error Mem.authDown, w)
  signInWithEmailAndPassword := fun email password w =>
    if w.online then
      match email, password with
      | .str e, .str p =>
        match Mem.byEmail e w.accounts with
        | none => (.error (.thrown (some "auth/user-not-found") "no such user"), w)
        | some a =>
          if a.password = p then (.ok ⟨a.uid, .str a.email⟩, w)
          else (.error (.thrown (some "auth/wrong-password") "wrong password"), w)
      | _, _ => (.error (.thrown (some "auth/invalid-email") "invalid argument"), w)
    else (.error Mem.authDown, w)
  getIdToken := fun user w =>
    if w.online then (.ok ("token-" ++ user.uid), w) else (.error Mem.authDown, w)
  verifyIdToken := fun idToken w =>
    match idToken with
    | .str t =>
      match w.accounts.find? (fun a => "token-" ++ a.uid = t) with
      | some a => (.ok (.obj [("uid", .str a.uid), ("email", .str a.email)]), w)
      | none => (.error (.thrown (some "auth/argument-error") "bad token"), w)
    | _ => (.error (.thrown (some "auth/argument-error") "bad token"), w)
  signOut := fun w =>
    if w.online then (.ok (), w) else (.error Mem.authDown, w)
  updateEmail := fun user newEmail w =>
    if w.online then
      match newEmail, Mem.byUid user.uid w.accounts with
      | .str e, some _ =>
        (.ok (), { w with accounts := Mem.amend user.uid (fun a => { a with email := e }) w.accounts })
      | .str _, none => (.error (.thrown (some "auth/user-not-found") "no such user"), w)
      | _, _ => (.error (.thrown (some "auth/invalid-email") "invalid argument"), w)
    else (.error Mem.authDown, w)
  updatePassword := fun user newPassword w =>
    if w.online then
      match newPassword, Mem.byUid user.uid w.accounts with
      | .str p, some _ =>
        (.ok (), { w with accounts := Mem.amend user.uid (fun a => { a with password := p }) w.accounts })
      | .str _, none => (.error (.thrown (some "auth/user-not-found") "no such user"), w)
      | _, _ => (.error (.thrown (some "auth/weak-password") "invalid argument"), w)
    else (.error Mem.authDown, w)
  sendPasswordResetEmail := fun email w =>
    if w.online then
      match email with
      | .str e =>
        match Mem.byEmail e w.accounts with
        | some _ => (.ok (), w)
        | none => (.error (.thrown (some "auth/user-not-found") "no such user"), w)
      | _ => (.error (.thrown (some "auth/invalid-email") "invalid argument"), w)
    else (.error Mem.authDown, w)
  autoId := fun _ w =>
    match w.fresh with
    | k :: more => (k, { w with fresh := more })
    | [] => ("", w)
  doc := Mem.doc
  setDoc := fun ref data w =>
    if w.online then
      match data with
      | .obj fields =>
        match Mem.find ref w.docs with
        | some _ => (.ok (), { w with docs := Mem.replace ref fields w.docs })
        | none => (.ok (), { w with docs := w.docs ++ [(ref, fields)] })
      | _ => (.error (.thrown (some "invalid-argument") "not an object"), w)
    else (.error Mem.storeDown, w)
  getDoc := fun ref w =>
    if w.online then (.ok (Mem.find ref w.docs), w) else (.error Mem.storeDown, w)
  updateDoc := fun ref data w =>
    if w.online then
      match data, Mem.find ref w.docs with
      | .obj fields, some old =>
        (.ok (), { w with docs := Mem.replace ref (Mem.merge fields old) w.docs })
      | .obj _, none => (.error (.thrown (some "not-found") "no document to update"), w)
      | _, _ => (.error (.thrown (some "invalid-argument") "not an object"), w)
    else (.error Mem.storeDown, w)

/-- A world with no account and no document. -/
def Mem.empty : Mem := ⟨true, [], [], ["U1", "K1", "U2", "K2"]⟩

/-- A world in which `a@x.com` is registered as `U1` with its two records. -/
def Mem.one : Mem :=
  ⟨true, [⟨"U1", "a@x.com", "secret1"⟩],
    [(⟨["users"], "U1"⟩, [("email", .str "a@x.com")]),
     (⟨["users", "U1", "foods-history"], "K1"⟩, [("userID", .str "U1")])],
    ["U2", "K2"]⟩

/-- The world `Mem.one` with a second account `b@x.com`, `U2`. -/
def Mem.two : Mem :=
  ⟨true, [⟨"U1", "a@x.com", "secret1"⟩, ⟨"U2", "b@x.com", "secret2"⟩],
    [(⟨["users"], "U1"⟩, [("email", .str "a@x.com")]),
     (⟨["users", "U1", "foods-history"], "K1"⟩, [("userID", .str "U1")]),
     (⟨["users"], "U2"⟩, [("email", .str "b@x.com")]),
     (⟨["users", "U2", "foods-history"], "K2"⟩, [("userID", .str "U2")])],
    []⟩

/-- The world `Mem.one` with the collaborators unreachable. -/
def Mem.down : Mem := { Mem.one with online := false }

/-- A request carrying an email and a password. -/
def credentials (email password : String) : Request :=
  ⟨"", ⟨.str email, .str password, .undefined, .undefined⟩, .undefined⟩

/-- A request carrying an `authorization` header. -/
def bearer (token : Val) : Request :=
  ⟨"", ⟨.undefined, .undefined, .undefined, .undefined⟩, token⟩

/-- A request carrying a path `uid` only. -/
def forUid (uid : String) : Request :=
  ⟨uid, ⟨.undefined, .undefined, .undefined, .undefined⟩, .undefined⟩

/-- An edit request for `uid`, authenticated as `a@x.com`. -/
def editRequest (uid : String) (email password : Val) : Request :=
  ⟨uid, ⟨email, password, .str "a@x.com", .str "secret1"⟩, .undefined⟩

/-- The contract of the profile store that the stored email after an edit
depends on, over the observation `profileOf w ref`, the fields of the record
stored at `ref`.  Reading a record returns its stored fields; a successful
`updateDoc` with `{email: e}` leaves a record whose email is `e`, and one with
`{}` leaves the record as it was; the identity provider's calls do not touch the
store. -/
structure StoreContract {σ : Type} (c : Collaborators σ)
    (profileOf : σ → DocRef → Option (List (String × Val))) : Prop where
  getDoc_reads : ∀ ref w snap w1, c.getDoc ref w = (.ok snap, w1) → snap = profileOf w ref
  updateDoc_email : ∀ ref e w w1, c.updateDoc ref (.obj [("email", e)]) w = (.ok (), w1) →
    ∃ new, profileOf w1 ref = some new ∧ lookupField "email" new = e
  updateDoc_nothing : ∀ ref w w1, c.updateDoc ref (.obj []) w = (.ok (), w1) →
    profileOf w1 ref = profileOf w ref
  signIn_keeps_store : ∀ e p w ref,
    profileOf (c.signInWithEmailAndPassword e p w).2 ref = profileOf w ref
  updateEmail_keeps_store : ∀ user e w ref,
    profileOf (c.updateEmail user e w).2 ref = profileOf w ref
  updatePassword_keeps_store : ∀ user p w ref,
    profileOf (c.updatePassword user p w).2 ref = profileOf w ref

/-- The stored fields of a record in the in-memory world. -/
def Mem.profileOf (w : Mem) (ref : DocRef) : Option (List (String × Val)) :=
  Mem.find ref w.docs

/-- The email of an account in the in-memory world. -/
def Mem.accountEmail (w : Mem) (uid : String) : Option Val :=
  (Mem.byUid uid w.accounts).map (fun a => Val.str a.email)

/-- A world in which the account `U1` exists but its profile record was never
written. -/
def Mem.orphan : Mem := ⟨true, [⟨"U1", "a@x.com", "secret1"⟩], [], ["K1"]⟩

/-- The in-memory collaborators with a store whose every write is refused with
the code `auth/email-already-in-use`. -/
def takenStore : Collaborators Mem :=
  { memory with
    setDoc := fun _ _ w => (.error (.thrown (some "auth/email-already-in-use") "refused"), w) }

/-- The in-memory collaborators with an identity provider that keeps addresses
in lower case. -/
def lowerCase : Collaborators Mem :=
  { memory with
    updateEmail := fun user newEmail w => memory.updateEmail user (Mem.lower newEmail) w }



/-! ## Evaluation lemmas -/

/-- Running a sequence: the second part runs on the state left by the first, unless the first raised a fault. -/
@[simp] theorem Eff.bind_apply {σ α β : Type} (m : Eff σ α) (f : α → Eff σ β) (s : St σ) :
    (m >>= f) s = match m s with
      | (.ok a, s') => f a s'
      | (.error e, s') => (.error e, s') := rfl

/-- Running `return a` leaves the state as it is. -/
@[simp] theorem Eff.pure_apply {σ α : Type} (a : α) (s : St σ) :
    (pure a : Eff σ α) s = (.ok a, s) := rfl

/-- Running a conditional runs the chosen branch. -/
@[simp] theorem Eff.ite_apply {σ α : Type} (p : Prop) [Decidable p] (m n : Eff σ α) (s : St σ) :
    (if p then m else n) s = if p then m s else n s := by
  split <;> rfl

/-- The state of a conditional result. -/
theorem snd_ite {α β : Type} (p : Prop) [Decidable p] (a b : α × β) :
    (if p then a else b).2 = if p then a.2 else b.2 := by
  split <;> rfl

/-! ## The in-memory store meets the contract -/

/-- Reading a record that was just replaced returns the new fields. -/
theorem Mem.find_replace (ref : DocRef) (fields : List (String × Val))
    (docs : List (DocRef × List (String × Val))) (old : List (String × Val))
    (h : Mem.find ref docs = some old) :
    Mem.find ref (Mem.replace ref fields docs) = some fields := by
  induction docs with
  | nil => simp [Mem.find] at h
  | cons d rest ih =>
    obtain ⟨r, f⟩ := d
    by_cases hr : r = ref
    · simp [Mem.replace, Mem.find, hr]
    · simp only [Mem.find, hr, if_false] at h
      simp [Mem.replace, Mem.find, hr, ih h]

/-- An update that gives no field leaves the fields as they were. -/
theorem Mem.merge_nil (old : List (String × Val)) : Mem.merge [] old = old := by
  simp [Mem.merge]

/-- The in-memory store satisfies `StoreContract`. -/
theorem memory_storeContract : StoreContract memory Mem.profileOf where
  getDoc_reads := by
    intro ref w snap w1 h
    simp only [memory] at h
    split at h
    · simp at h
      exact h.1.symm
    · simp at h
  updateDoc_email := by
    intro ref e w w1 h
    simp only [memory] at h
    split at h
    · cases hf : Mem.find ref w.docs with
      | none => simp [hf] at h
      | some old =>
        simp only [hf, Prod.mk.injEq, true_and] at h
        subst h
        exact ⟨Mem.merge [("email", e)] old, Mem.find_replace _ _ _ _ hf,
          by simp [Mem.merge, lookupField]⟩
    · simp at h
  updateDoc_nothing := by
    intro ref w w1 h
    simp only [memory] at h
    split at h
    · cases hf : Mem.find ref w.docs with
      | none => simp [hf] at h
      | some old =>
        simp only [hf, Prod.mk.injEq, true_and] at h
        subst h
        simp only [Mem.profileOf, Mem.merge_nil, hf]
        exact Mem.find_replace _ _ _ _ hf
    · simp at h
  signIn_keeps_store := by
    intro e p w ref
    simp only [memory]
    repeat' split
    all_goals rfl
  updateEmail_keeps_store := by
    intro user e w ref
    simp only [memory]
    repeat' split
    all_goals rfl
  updatePassword_keeps_store := by
    intro user p w ref
    simp only [memory]
    repeat' split
    all_goals rfl

/-! ## Faults raised during a run -/

/-- Register re-raises, unmodified, every fault raised by one of its calls whose code is not `auth/email-already-in-use`. -/
theorem registerHandler_raised {σ : Type} (c : Collaborators σ) (request : Request)
    (w : σ) (u : Val) (e : Fault)
    (hr : raised (registerHandler c request (St.start w u)) e)
    (hc : e.code ≠ some "auth/email-already-in-use") :
    (registerHandler c request (St.start w u)).1 = .error e := by
  rcases h1 : c.createUserWithEmailAndPassword request.payload.email request.payload.password w
    with ⟨r1, w1⟩
  cases r1 with
  | error e1 =>
    have he : e1 = e := by
      simpa [raised, registerHandler, Eff.tryCatch, Eff.call, St.start, faultOf, h1,
        snd_ite, Eff.throw] using hr
    subst he
    simp only [registerHandler, Eff.tryCatch, Eff.call, St.start, Eff.bind_apply, h1,
      if_neg hc, Eff.throw]
  | ok user =>
    rcases h2 : c.setDoc ⟨["users"], user.uid⟩ (.obj [("email", request.payload.email)]) w1
      with ⟨r2, w2⟩
    rcases h3 : c.autoId ["users", user.uid, "foods-history"] w2 with ⟨key, w3⟩
    rcases h4 : c.setDoc ⟨["users", user.uid, "foods-history"], key⟩
      (.obj [("userID", .str user.uid)]) w3 with ⟨r4, w4⟩
    cases r2 <;> cases r4
    all_goals simp [raised, registerHandler, Eff.tryCatch, Eff.call, Eff.autoDoc, St.start,
      faultOf, h1, h2, h3, h4, doc, collection, snd_ite, Eff.throw] at hr ⊢
    all_goals subst hr
    all_goals simp [hc, Eff.throw]

/-- Login maps a raised fault by its code: `auth/user-not-found` to 400, `auth/wrong-password` to 401, and re-raises every other fault unmodified. -/
theorem loginHandler_raised {σ : Type} (c : Collaborators σ) (request : Request)
    (w : σ) (u : Val) (e : Fault)
    (hr : raised (loginHandler c request (St.start w u)) e) :
    (e.code = some "auth/user-not-found" →
      (loginHandler c request (St.start w u)).1 =
        .ok (.response (.obj [("success", .bool false),
          ("message", .str "User not found")]) 400)) ∧
    (e.code = some "auth/wrong-password" →
      (loginHandler c request (St.start w u)).1 =
        .ok (.response (.obj [("success", .bool false),
          ("message", .str "Email and password does not match")]) 401)) ∧
    (e.code ≠ some "auth/user-not-found" → e.code ≠ some "auth/wrong-password" →
      (loginHandler c request (St.start w u)).1 = .error e) := by
  rcases h1 : c.signInWithEmailAndPassword request.payload.email request.payload.password w
    with ⟨r1, w1⟩
  cases r1 with
  | error e1 =>
    have he : e1 = e := by
      simpa [raised, loginHandler, Eff.tryCatch, Eff.call, St.start, faultOf, h1,
        snd_ite, Eff.throw] using hr
    subst he
    refine ⟨?_, ?_, ?_⟩
    · intro hc
      simp [loginHandler, Eff.tryCatch, Eff.call, St.start, faultOf, h1, hc]
    · intro hc
      simp [loginHandler, Eff.tryCatch, Eff.call, St.start, faultOf, h1, hc]
    · intro hc1 hc2
      simp only [loginHandler, Eff.tryCatch, Eff.call, St.start, Eff.bind_apply, h1,
        if_neg hc1, if_neg hc2, Eff.throw]
  | ok user =>
    rcases h2 : c.getIdToken user w1 with ⟨r2, w2⟩
    cases r2 with
    | error e2 =>
      have he : e2 = e := by
        simpa [raised, loginHandler, Eff.tryCatch, Eff.call, St.start, faultOf, h1, h2,
          snd_ite, Eff.throw] using hr
      subst he
      refine ⟨?_, ?_, ?_⟩
      · intro hc
        simp [loginHandler, Eff.tryCatch, Eff.call, St.start, faultOf, h1, h2, hc]
      · intro hc
        simp [loginHandler, Eff.tryCatch, Eff.call, St.start, faultOf, h1, h2, hc]
      · intro hc1 hc2
        simp only [loginHandler, Eff.tryCatch, Eff.call, St.start, Eff.bind_apply, h1, h2,
          if_neg hc1, if_neg hc2, Eff.throw]
    | ok t =>
      simp [raised, loginHandler, Eff.tryCatch, Eff.call, St.start, faultOf, h1, h2] at hr

/-- EditProfile re-raises, unmodified, every fault raised by one of its calls (re-authentication, store update, email or password change) whose code is not `auth/user-not-found`. -/
theorem editUserDataHandler_raised {σ : Type} (c : Collaborators σ) (request : Request)
    (w : σ) (u : Val) (e : Fault)
    (hr : raised (editUserDataHandler c request (St.start w u)) e)
    (hc : e.code ≠ some "auth/user-not-found") :
    (editUserDataHandler c request (St.start w u)).1 = .error e := by
  rcases h1 : c.signInWithEmailAndPassword request.payload.currentEmail
    request.payload.currentPassword w with ⟨r1, w1⟩
  rcases h2 : c.updateDoc ⟨["users"], request.uid⟩
    (.obj (if request.payload.email.truthy then [("email", request.payload.email)] else [])) w1
    with ⟨r2, w2⟩
  cases r1 with
  | error e1 =>
    have he : e1 = e := by
      simpa [raised, editUserDataHandler, Eff.tryCatch, Eff.call, St.start, faultOf, h1,
        snd_ite, Eff.throw] using hr
    subst he
    simp only [editUserDataHandler, Eff.tryCatch, Eff.call, St.start, Eff.bind_apply, h1,
      if_neg hc, Eff.throw]
  | ok user =>
    by_cases hu : user.uid = request.uid
    · rcases h3 : c.updateEmail user request.payload.email w2 with ⟨r3, w3⟩
      rcases h4 : c.updatePassword user request.payload.password w2 with ⟨r4, w4⟩
      rcases h5 : c.updatePassword user request.payload.password w3 with ⟨r5, w5⟩
      cases hte : request.payload.email.truthy <;> cases htp : request.payload.password.truthy
        <;> cases r2 <;> cases r3 <;> cases r4 <;> cases r5
      all_goals simp only [hte, Bool.false_eq_true, if_true, if_false] at h2
      all_goals simp [raised, editUserDataHandler, Eff.tryCatch, Eff.call, St.start, faultOf, h1,
            hu, doc, h2, h3, h4, h5, hte, htp, snd_ite, Eff.throw] at hr ⊢
      all_goals subst hr
      all_goals simp [hc, Eff.throw]
    · simp [raised, editUserDataHandler, Eff.tryCatch, Eff.call, St.start, faultOf, h1, hu] at hr

/-- ResetPassword re-raises, unmodified, every fault whose code is not `auth/user-not-found`. -/
theorem resetPasswordHandler_raised {σ : Type} (c : Collaborators σ) (request : Request)
    (w : σ) (u : Val) (e : Fault)
    (hr : raised (resetPasswordHandler c request (St.start w u)) e)
    (hc : e.code ≠ some "auth/user-not-found") :
    (resetPasswordHandler c request (St.start w u)).1 = .error e := by
  rcases h1 : c.sendPasswordResetEmail request.payload.email w with ⟨r1, w1⟩
  cases r1 with
  | error e1 =>
    have he : e1 = e := by
      simpa [raised, resetPasswordHandler, Eff.tryCatch, Eff.call, St.start, faultOf, h1,
        snd_ite, Eff.throw] using hr
    subst he
    simp only [resetPasswordHandler, Eff.tryCatch, Eff.call, St.start, Eff.bind_apply, h1,
      if_neg hc, Eff.throw]
  | ok _ =>
    simp [raised, resetPasswordHandler, Eff.tryCatch, Eff.call, St.start, faultOf, h1] at hr

/-- VerifyToken answers every fault of the provider with `Boom.unauthorized('Invalid token')`. -/
theorem verifyTokenHandler_raised {σ : Type} (c : Collaborators σ) (request : Request)
    (w : σ) (u : Val) (e : Fault)
    (hr : raised (verifyTokenHandler c request (St.start w u)) e) :
    (verifyTokenHandler c request (St.start w u)).1 = .error (.boom 401 "Invalid token") := by
  rcases h1 : c.verifyIdToken request.authorization w with ⟨r1, w1⟩
  cases r1 with
  | error e1 =>
    simp [verifyTokenHandler, Eff.tryCatch, Eff.call, St.start, h1, Eff.throw,
      Boom.unauthorized]
  | ok _ =>
    simp [raised, verifyTokenHandler, Eff.tryCatch, Eff.call, Eff.setRequestUser, St.start,
      faultOf, h1] at hr

/-- Logout answers every fault of sign-out with the 400 response `Something went wrong`. -/
theorem logoutHandler_raised {σ : Type} (c : Collaborators σ) (request : Request)
    (w : σ) (u : Val) (e : Fault)
    (hr : raised (logoutHandler c request (St.start w u)) e) :
    (logoutHandler c request (St.start w u)).1 =
      .ok (.response (.obj [("success", .bool false),
        ("message", .str "Something went wrong")]) 400) := by
  rcases h1 : c.signOut w with ⟨r1, w1⟩
  cases r1 with
  | error e1 =>
    simp [logoutHandler, Eff.tryCatch, Eff.call, St.start, h1]
  | ok _ =>
    simp [raised, logoutHandler, Eff.tryCatch, Eff.call, St.start, faultOf, h1] at hr

/-- GetProfile answers every fault of the store read with the 500 response `Error fetching user data`. -/
theorem getUserByIdHandler_raised {σ : Type} (c : Collaborators σ) (request : Request)
    (w : σ) (u : Val) (e : Fault)
    (hr : raised (getUserByIdHandler c request (St.start w u)) e) :
    (getUserByIdHandler c request (St.start w u)).1 =
      .ok (.response (.obj [("success", .bool false),
        ("message", .str "Error fetching user data")]) 500) := by
  cases hd : c.doc "users" request.uid with
  | error e0 =>
    simp [raised, getUserByIdHandler, Eff.tryCatch, Eff.resolve, St.start, hd] at hr
  | ok ref =>
    rcases h1 : c.getDoc ref w with ⟨r1, w1⟩
    cases r1 with
    | error e1 =>
      simp [getUserByIdHandler, Eff.tryCatch, Eff.resolve, Eff.call, St.start, hd, h1]
    | ok snap =>
      cases snap <;>
        simp [raised, getUserByIdHandler, Eff.tryCatch, Eff.resolve, Eff.call, St.start,
          faultOf, hd, h1] at hr

/-! ## Register -/

/-- Claim C1 (Register success).  For every email and password for which
create-account succeeds with an account `user`, the first store write succeeds,
the key generator yields `key`, and the second store write succeeds,
`registerHandler` makes exactly the calls create-account, put-document of
`{email: <payload email>}` at key `user.uid` in `users`, put-document of
`{userID: user.uid}` at the generated key in `users/<uid>/foods-history`, in this
order and each without fault, and returns status 201 with body
`{success: true, message: 'User registered successfully',
data: {uid: user.uid, email: user.email}}`. -/
theorem registerHandler_success {σ : Type} (c : Collaborators σ) (request : Request)
    (w : σ) (u : Val) (user : User) (key : String) (w1 w2 w3 w4 : σ)
    (hcreate : c.createUserWithEmailAndPassword request.payload.email request.payload.password w
      = (.ok user, w1))
    (hprofile : c.setDoc ⟨["users"], user.uid⟩ (.obj [("email", request.payload.email)]) w1
      = (.ok (), w2))
    (hkey : c.autoId ["users", user.uid, "foods-history"] w2 = (key, w3))
    (hhistory : c.setDoc ⟨["users", user.uid, "foods-history"], key⟩
      (.obj [("userID", .str user.uid)]) w3 = (.ok (), w4)) :
    registerHandler c request (St.start w u) =
      (.ok (.response (.obj [("success", .bool true),
          ("message", .str "User registered successfully"),
          ("data", .obj [("uid", .str user.uid), ("email", user.email)])]) 201),
       { world := w4,
         trace := [
           ⟨.createUserWithEmailAndPassword request.payload.email request.payload.password, none⟩,
           ⟨.setDoc ⟨["users"], user.uid⟩ (.obj [("email", request.payload.email)]), none⟩,
           ⟨.setDoc ⟨["users", user.uid, "foods-history"], key⟩
             (.obj [("userID", .str user.uid)]), none⟩],
         user := u }) := by
  simp [registerHandler, Eff.tryCatch, Eff.call, Eff.autoDoc, St.start, doc, collection, faultOf,
    hcreate, hprofile, hkey, hhistory]

/-- Registering `a@x.com` in the empty in-memory world: the instance of `registerHandler_success`. -/
theorem registerHandler_success_witness :
    registerHandler memory (credentials "a@x.com" "secret1") (St.start Mem.empty .undefined) =
      (.ok (.response (.obj [("success", .bool true),
          ("message", .str "User registered successfully"),
          ("data", .obj [("uid", .str "U1"), ("email", .str "a@x.com")])]) 201),
       { world := Mem.one,
         trace := [
           ⟨.createUserWithEmailAndPassword (.str "a@x.com") (.str "secret1"), none⟩,
           ⟨.setDoc ⟨["users"], "U1"⟩ (.obj [("email", .str "a@x.com")]), none⟩,
           ⟨.setDoc ⟨["users", "U1", "foods-history"], "K1"⟩ (.obj [("userID", .str "U1")]), none⟩],
         user := .undefined }) :=
  registerHandler_success memory (credentials "a@x.com" "secret1") Mem.empty .undefined
    ⟨"U1", .str "a@x.com"⟩ "K1"
    ⟨true, [⟨"U1", "a@x.com", "secret1"⟩], [], ["K1", "U2", "K2"]⟩
    ⟨true, [⟨"U1", "a@x.com", "secret1"⟩], [(⟨["users"], "U1"⟩, [("email", .str "a@x.com")])],
      ["K1", "U2", "K2"]⟩
    ⟨true, [⟨"U1", "a@x.com", "secret1"⟩], [(⟨["users"], "U1"⟩, [("email", .str "a@x.com")])],
      ["U2", "K2"]⟩
    Mem.one rfl rfl rfl rfl

/-- Claim C5 fails when a store write raises the mapped code.  With a store
whose writes are refused with code `auth/email-already-in-use`, create-account
succeeds and the account `U1` exists, the first store write raises that code,
and `registerHandler` answers 400 `The email address is already in use`: a 400
response that does not come from create-account reporting the email taken, after
an Account was created by the call. -/
theorem registerHandler_store_fault_400 :
    memory.createUserWithEmailAndPassword (.str "a@x.com") (.str "secret1") Mem.empty =
        (.ok ⟨"U1", .str "a@x.com"⟩,
          ⟨true, [⟨"U1", "a@x.com", "secret1"⟩], [], ["K1", "U2", "K2"]⟩) ∧
    registerHandler takenStore (credentials "a@x.com" "secret1") (St.start Mem.empty .undefined) =
        (.ok (.response (.obj [("success", .bool false),
            ("message", .str "The email address is already in use")]) 400),
         { world := ⟨true, [⟨"U1", "a@x.com", "secret1"⟩], [], ["K1", "U2", "K2"]⟩,
           trace := [
             ⟨.createUserWithEmailAndPassword (.str "a@x.com") (.str "secret1"), none⟩,
             ⟨.setDoc ⟨["users"], "U1"⟩ (.obj [("email", .str "a@x.com")]),
               some (.thrown (some "auth/email-already-in-use") "refused")⟩],
           user := .undefined }) :=
  ⟨rfl, rfl⟩

/-- Claim C5, amended (Register, duplicate email).  (1) When create-account raises
a fault with code `auth/email-already-in-use`, `registerHandler` returns 400 with
body `{success: false, message: 'The email address is already in use'}`; the only
call made is the faulting create-account, so there is no store write, and the
world is the one the provider left.  (2) A 400 response from Register carries
that body and arises only when a call of the run raised a fault with code
`auth/email-already-in-use`.  (3) Any other fault of create-account is re-raised
unmodified. -/
theorem registerHandler_duplicate {σ : Type} (c : Collaborators σ) (request : Request)
    (w : σ) (u : Val) :
    (∀ e w1,
      c.createUserWithEmailAndPassword request.payload.email request.payload.password w
        = (.error e, w1) →
      e.code = some "auth/email-already-in-use" →
      registerHandler c request (St.start w u) =
        (.ok (.response (.obj [("success", .bool false),
            ("message", .str "The email address is already in use")]) 400),
         { world := w1,
           trace := [⟨.createUserWithEmailAndPassword request.payload.email
             request.payload.password, some e⟩],
           user := u })) ∧
    (∀ body, (registerHandler c request (St.start w u)).1 = .ok (.response body 400) →
      body = .obj [("success", .bool false),
        ("message", .str "The email address is already in use")] ∧
      ∃ e, raised (registerHandler c request (St.start w u)) e ∧
        e.code = some "auth/email-already-in-use") ∧
    (∀ e w1,
      c.createUserWithEmailAndPassword request.payload.email request.payload.password w
        = (.error e, w1) →
      e.code ≠ some "auth/email-already-in-use" →
      registerHandler c request (St.start w u) =
        (.error e,
         { world := w1,
           trace := [⟨.createUserWithEmailAndPassword request.payload.email
             request.payload.password, some e⟩],
           user := u })) := by
  refine ⟨?_, ?_, ?_⟩
  · intro e w1 h hcode
    simp [registerHandler, Eff.tryCatch, Eff.call, St.start, faultOf, h, hcode]
  · intro body
    rcases h1 : c.createUserWithEmailAndPassword request.payload.email
      request.payload.password w with ⟨r1, w1⟩
    cases r1 with
    | error e1 =>
      by_cases hcode : e1.code = some "auth/email-already-in-use"
      · intro hb
        simp [registerHandler, Eff.tryCatch, Eff.call, St.start, faultOf, h1, hcode] at hb
        refine ⟨hb.symm, e1, ?_, hcode⟩
        simp [raised, registerHandler, Eff.tryCatch, Eff.call, St.start, faultOf, h1, hcode]
      · simp [registerHandler, Eff.tryCatch, Eff.call, St.start, faultOf, h1, hcode, Eff.throw]
    | ok user =>
      rcases h2 : c.setDoc ⟨["users"], user.uid⟩ (.obj [("email", request.payload.email)]) w1
        with ⟨r2, w2⟩
      rcases h3 : c.autoId ["users", user.uid, "foods-history"] w2 with ⟨key, w3⟩
      rcases h4 : c.setDoc ⟨["users", user.uid, "foods-history"], key⟩
        (.obj [("userID", .str user.uid)]) w3 with ⟨r4, w4⟩
      cases r2 with
      | error e2 =>
        by_cases hcode : e2.code = some "auth/email-already-in-use"
        · intro hb
          simp [registerHandler, Eff.tryCatch, Eff.call, St.start, faultOf, h1, h2, doc,
            hcode] at hb
          refine ⟨hb.symm, e2, ?_, hcode⟩
          simp [raised, registerHandler, Eff.tryCatch, Eff.call, St.start, faultOf, h1, h2, doc,
            hcode]
        · simp [registerHandler, Eff.tryCatch, Eff.call, St.start, faultOf, h1, h2, doc, hcode,
            Eff.throw]
      | ok _ =>
        cases r4 with
        | error e4 =>
          by_cases hcode : e4.code = some "auth/email-already-in-use"
          · intro hb
            simp [registerHandler, Eff.tryCatch, Eff.call, Eff.autoDoc, St.start, faultOf, h1,
              h2, h3, h4, doc, collection, hcode] at hb
            refine ⟨hb.symm, e4, ?_, hcode⟩
            simp [raised, registerHandler, Eff.tryCatch, Eff.call, Eff.autoDoc, St.start,
              faultOf, h1, h2, h3, h4, doc, collection, hcode]
          · simp [registerHandler, Eff.tryCatch, Eff.call, Eff.autoDoc, St.start, faultOf, h1,
              h2, h3, h4, doc, collection, hcode, Eff.throw]
        | ok _ =>
          simp [registerHandler, Eff.tryCatch, Eff.call, Eff.autoDoc, St.start, faultOf, h1,
            h2, h3, h4, doc, collection]
  · intro e w1 h hcode
    simp [registerHandler, Eff.tryCatch, Eff.call, St.start, faultOf, h, hcode, Eff.throw]

/-- Registering `a@x.com` a second time, and registering while the provider is unreachable: the instances of `registerHandler_duplicate`. -/
theorem registerHandler_duplicate_witness :
    registerHandler memory (credentials "a@x.com" "secret1") (St.start Mem.one .undefined) =
        (.ok (.response (.obj [("success", .bool false),
            ("message", .str "The email address is already in use")]) 400),
         { world := Mem.one,
           trace := [⟨.createUserWithEmailAndPassword (.str "a@x.com") (.str "secret1"),
             some (.thrown (some "auth/email-already-in-use") "email in use")⟩],
           user := .undefined }) ∧
    (∃ e, raised (registerHandler memory (credentials "a@x.com" "secret1")
          (St.start Mem.one .undefined)) e ∧
        e.code = some "auth/email-already-in-use") ∧
    registerHandler memory (credentials "a@x.com" "secret1") (St.start Mem.down .undefined) =
        (.error Mem.authDown,
         { world := Mem.down,
           trace := [⟨.createUserWithEmailAndPassword (.str "a@x.com") (.str "secret1"),
             some Mem.authDown⟩],
           user := .undefined }) :=
  ⟨(registerHandler_duplicate memory (credentials "a@x.com" "secret1") Mem.one .undefined).1
      (.thrown (some "auth/email-already-in-use") "email in use") Mem.one rfl rfl,
   ((registerHandler_duplicate memory (credentials "a@x.com" "secret1") Mem.one .undefined).2.1
      _ rfl).2,
   (registerHandler_duplicate memory (credentials "a@x.com" "secret1") Mem.down .undefined).2.2
      Mem.authDown Mem.down rfl (by decide)⟩

/-! ## Login -/

/-- Claim C4 (Login).  If authenticate succeeds with an account `user` and
issue-token returns `t`, `loginHandler` returns 200 with data `{uid, email,
accessToken: t}` taken from `user`.  If a call of the run raises a fault `e`:
code `auth/user-not-found` gives 400 with success false, code
`auth/wrong-password` gives 401 with success false, and for any other code the
result is the raised fault `e` itself, with no response. -/
theorem loginHandler_outcome {σ : Type} (c : Collaborators σ) (request : Request)
    (w : σ) (u : Val) :
    (∀ user w1 t w2,
      c.signInWithEmailAndPassword request.payload.email request.payload.password w
        = (.ok user, w1) →
      c.getIdToken user w1 = (.ok t, w2) →
      loginHandler c request (St.start w u) =
        (.ok (.response (.obj [("success", .bool true),
            ("message", .str "Login Successfully"),
            ("data", .obj [("uid", .str user.uid), ("email", user.email),
              ("accessToken", .str t)])]) 200),
         { world := w2,
           trace := [⟨.signInWithEmailAndPassword request.payload.email
             request.payload.password, none⟩, ⟨.getIdToken user, none⟩],
           user := u })) ∧
    (∀ e, raised (loginHandler c request (St.start w u)) e →
      (e.code = some "auth/user-not-found" →
        (loginHandler c request (St.start w u)).1 =
          .ok (.response (.obj [("success", .bool false),
            ("message", .str "User not found")]) 400)) ∧
      (e.code = some "auth/wrong-password" →
        (loginHandler c request (St.start w u)).1 =
          .ok (.response (.obj [("success", .bool false),
            ("message", .str "Email and password does not match")]) 401)) ∧
      (e.code ≠ some "auth/user-not-found" → e.code ≠ some "auth/wrong-password" →
        (loginHandler c request (St.start w u)).1 = .error e)) := by
  refine ⟨?_, loginHandler_raised c request w u⟩
  intro user w1 t w2 h1 h2
  simp [loginHandler, Eff.tryCatch, Eff.call, St.start, faultOf, h1, h2]

/-- Login with the right password, an unknown email, a wrong password, and an unreachable provider: the instances of `loginHandler_outcome`. -/
theorem loginHandler_outcome_witness :
    loginHandler memory (credentials "a@x.com" "secret1") (St.start Mem.one .undefined) =
        (.ok (.response (.obj [("success", .bool true),
            ("message", .str "Login Successfully"),
            ("data", .obj [("uid", .str "U1"), ("email", .str "a@x.com"),
              ("accessToken", .str "token-U1")])]) 200),
         { world := Mem.one,
           trace := [⟨.signInWithEmailAndPassword (.str "a@x.com") (.str "secret1"), none⟩,
             ⟨.getIdToken ⟨"U1", .str "a@x.com"⟩, none⟩],
           user := .undefined }) ∧
    (loginHandler memory (credentials "c@x.com" "secret1") (St.start Mem.one .undefined)).1 =
        .ok (.response (.obj [("success", .bool false),
          ("message", .str "User not found")]) 400) ∧
    (loginHandler memory (credentials "a@x.com" "guess") (St.start Mem.one .undefined)).1 =
        .ok (.response (.obj [("success", .bool false),
          ("message", .str "Email and password does not match")]) 401) ∧
    (loginHandler memory (credentials "a@x.com" "secret1") (St.start Mem.down .undefined)).1 =
        .error Mem.authDown :=
  ⟨(loginHandler_outcome memory (credentials "a@x.com" "secret1") Mem.one .undefined).1
      ⟨"U1", .str "a@x.com"⟩ Mem.one "token-U1" Mem.one rfl rfl,
   ((loginHandler_outcome memory (credentials "c@x.com" "secret1") Mem.one .undefined).2
      (.thrown (some "auth/user-not-found") "no such user")
      ⟨⟨.signInWithEmailAndPassword (.str "c@x.com") (.str "secret1"),
        some (.thrown (some "auth/user-not-found") "no such user")⟩,
        List.Mem.head _, rfl⟩).1 rfl,
   ((loginHandler_outcome memory (credentials "a@x.com" "guess") Mem.one .undefined).2
      (.thrown (some "auth/wrong-password") "wrong password")
      ⟨⟨.signInWithEmailAndPassword (.str "a@x.com") (.str "guess"),
        some (.thrown (some "auth/wrong-password") "wrong password")⟩,
        List.Mem.head _, rfl⟩).2.1 rfl,
   ((loginHandler_outcome memory (credentials "a@x.com" "secret1") Mem.down .undefined).2
      Mem.authDown
      ⟨⟨.signInWithEmailAndPassword (.str "a@x.com") (.str "secret1"), some Mem.authDown⟩,
        List.Mem.head _, rfl⟩).2.2 (by decide) (by decide)⟩

/-! ## Verify token -/

/-- Claim C3 (VerifyToken gate).  If verify-token succeeds on the value of the
`authorization` header with claims `claims`, `verifyTokenHandler` sets
`request.user` to `claims` and returns the continue signal.  If verify-token
raises any fault `e`, the handler does not continue, leaves `request.user` as it
was, and raises the Unauthorized fault (status 401, message `Invalid token`),
whatever `e` is. -/
theorem verifyTokenHandler_gate {σ : Type} (c : Collaborators σ) (request : Request)
    (w : σ) (u : Val) :
    (∀ claims w1, c.verifyIdToken request.authorization w = (.ok claims, w1) →
      verifyTokenHandler c request (St.start w u) =
        (.ok .h_continue,
         { world := w1,
           trace := [⟨.verifyIdToken request.authorization, none⟩],
           user := claims })) ∧
    (∀ e w1, c.verifyIdToken request.authorization w = (.error e, w1) →
      verifyTokenHandler c request (St.start w u) =
        (.error (.boom 401 "Invalid token"),
         { world := w1,
           trace := [⟨.verifyIdToken request.authorization, some e⟩],
           user := u })) := by
  refine ⟨?_, ?_⟩
  · intro claims w1 h
    simp [verifyTokenHandler, Eff.tryCatch, Eff.call, Eff.setRequestUser, St.start, faultOf, h]
  · intro e w1 h
    simp [verifyTokenHandler, Eff.tryCatch, Eff.call, St.start, faultOf, h, Eff.throw,
      Boom.unauthorized]

/-- A token issued for `U1` and an unknown token: the instances of `verifyTokenHandler_gate`. -/
theorem verifyTokenHandler_gate_witness :
    verifyTokenHandler memory (bearer (.str "token-U1")) (St.start Mem.one .null) =
        (.ok .h_continue,
         { world := Mem.one,
           trace := [⟨.verifyIdToken (.str "token-U1"), none⟩],
           user := .obj [("uid", .str "U1"), ("email", .str "a@x.com")] }) ∧
    verifyTokenHandler memory (bearer (.str "expired")) (St.start Mem.one .null) =
        (.error (.boom 401 "Invalid token"),
         { world := Mem.one,
           trace := [⟨.verifyIdToken (.str "expired"),
             some (.thrown (some "auth/argument-error") "bad token")⟩],
           user := .null }) :=
  ⟨(verifyTokenHandler_gate memory (bearer (.str "token-U1")) Mem.one .null).1
      (.obj [("uid", .str "U1"), ("email", .str "a@x.com")]) Mem.one rfl,
   (verifyTokenHandler_gate memory (bearer (.str "expired")) Mem.one .null).2
      (.thrown (some "auth/argument-error") "bad token") Mem.one rfl⟩

/-! ## Get profile -/

/-- Claim C7 fails for a uid that is not one path segment.  In a reachable
store with no record at key `a/b` of `users`, GetProfile of `a/b` answers 500
without any store access: the reference has an odd number of segments and
building it raises inside the `try`.  With no record at key
`U1/foods-history/K1` of `users`, GetProfile of that uid answers 200: the
reference names the History record `users/U1/foods-history/K1`, which has no
email field. -/
theorem getUserByIdHandler_slash_uid :
    (Mem.profileOf Mem.one ⟨["users"], "a/b"⟩ = none ∧
      getUserByIdHandler memory (forUid "a/b") (St.start Mem.one .undefined) =
        (.ok (.response (.obj [("success", .bool false),
            ("message", .str "Error fetching user data")]) 500),
         { world := Mem.one, trace := [], user := .undefined })) ∧
    (Mem.profileOf Mem.one ⟨["users"], "U1/foods-history/K1"⟩ = none ∧
      getUserByIdHandler memory (forUid "U1/foods-history/K1") (St.start Mem.one .undefined) =
        (.ok (.response (.obj [("success", .bool true),
            ("message", .str "Success fetching user data"),
            ("data", .obj [("uid", .str "U1/foods-history/K1"),
              ("email", .undefined)])]) 200),
         { world := Mem.one,
           trace := [⟨.getDoc ⟨["users", "U1", "foods-history"], "K1"⟩, none⟩],
           user := .undefined })) :=
  ⟨⟨rfl, rfl⟩, ⟨rfl, rfl⟩⟩

/-- Claim C7, amended (GetProfile).  When building the reference
`doc(db, 'users', uid)` raises, `getUserByIdHandler` returns 500 with the fixed
body `{success: false, message: 'Error fetching user data'}` and makes no call.
When it yields a reference `ref`: an absent record at `ref` gives 404 with
success false, a present one gives 200 with data `{uid: <path uid>,
email: <email field of that record>}`, and a fault of the read gives the same
fixed 500 body.  In every case the result is a response, never a raised fault,
and the run makes no call or exactly one read: no store write. -/
theorem getUserByIdHandler_total {σ : Type} (c : Collaborators σ) (request : Request)
    (w : σ) (u : Val) :
    (∀ e, c.doc "users" request.uid = .error e →
      getUserByIdHandler c request (St.start w u) =
        (.ok (.response (.obj [("success", .bool false),
            ("message", .str "Error fetching user data")]) 500),
         { world := w, trace := [], user := u })) ∧
    (∀ ref w1, c.doc "users" request.uid = .ok ref → c.getDoc ref w = (.ok none, w1) →
      getUserByIdHandler c request (St.start w u) =
        (.ok (.response (.obj [("success", .bool false),
            ("message", .str "User not found")]) 404),
         { world := w1, trace := [⟨.getDoc ref, none⟩], user := u })) ∧
    (∀ ref data w1, c.doc "users" request.uid = .ok ref →
      c.getDoc ref w = (.ok (some data), w1) →
      getUserByIdHandler c request (St.start w u) =
        (.ok (.response (.obj [("success", .bool true),
            ("message", .str "Success fetching user data"),
            ("data", .obj [("uid", .str request.uid),
              ("email", lookupField "email" data)])]) 200),
         { world := w1, trace := [⟨.getDoc ref, none⟩], user := u })) ∧
    (∀ ref e w1, c.doc "users" request.uid = .ok ref → c.getDoc ref w = (.error e, w1) →
      getUserByIdHandler c request (St.start w u) =
        (.ok (.response (.obj [("success", .bool false),
            ("message", .str "Error fetching user data")]) 500),
         { world := w1, trace := [⟨.getDoc ref, some e⟩], user := u })) ∧
    (∃ reply, (getUserByIdHandler c request (St.start w u)).1 = .ok reply) ∧
    (calls (getUserByIdHandler c request (St.start w u)) = [] ∨
      ∃ ref, calls (getUserByIdHandler c request (St.start w u)) = [.getDoc ref]) := by
  cases hd : c.doc "users" request.uid with
  | error e0 =>
    simp [getUserByIdHandler, Eff.tryCatch, Eff.resolve, St.start, hd, calls]
  | ok ref =>
    rcases h : c.getDoc ref w with ⟨r, w1⟩
    cases r with
    | error e =>
      simp [getUserByIdHandler, Eff.tryCatch, Eff.resolve, Eff.call, St.start, faultOf, hd, h,
        calls]
      refine ⟨?_, ?_, ?_⟩ <;> intros <;> subst_vars <;> simp_all
    | ok snap =>
      cases snap with
      | none =>
        simp [getUserByIdHandler, Eff.tryCatch, Eff.resolve, Eff.call, St.start, faultOf, hd,
          h, calls]
        refine ⟨?_, ?_, ?_⟩ <;> intros <;> subst_vars <;> simp_all
      | some data =>
        simp [getUserByIdHandler, Eff.tryCatch, Eff.resolve, Eff.call, St.start, faultOf, hd,
          h, calls]
        refine ⟨?_, ?_, ?_⟩ <;> intros <;> subst_vars <;> simp_all

/-- GetProfile of the empty uid, of an absent record, of a present record, and with the store unreachable: the instances of `getUserByIdHandler_total`. -/
theorem getUserByIdHandler_total_witness :
    getUserByIdHandler memory (forUid "") (St.start Mem.one .undefined) =
        (.ok (.response (.obj [("success", .bool false),
            ("message", .str "Error fetching user data")]) 500),
         { world := Mem.one, trace := [], user := .undefined }) ∧
    getUserByIdHandler memory (forUid "U9") (St.start Mem.one .undefined) =
        (.ok (.response (.obj [("success", .bool false),
            ("message", .str "User not found")]) 404),
         { world := Mem.one, trace := [⟨.getDoc ⟨["users"], "U9"⟩, none⟩],
           user := .undefined }) ∧
    getUserByIdHandler memory (forUid "U1") (St.start Mem.one .undefined) =
        (.ok (.response (.obj [("success", .bool true),
            ("message", .str "Success fetching user data"),
            ("data", .obj [("uid", .str "U1"), ("email", .str "a@x.com")])]) 200),
         { world := Mem.one, trace := [⟨.getDoc ⟨["users"], "U1"⟩, none⟩],
           user := .undefined }) ∧
    getUserByIdHandler memory (forUid "U1") (St.start Mem.down .undefined) =
        (.ok (.response (.obj [("success", .bool false),
            ("message", .str "Error fetching user data")]) 500),
         { world := Mem.down, trace := [⟨.getDoc ⟨["users"], "U1"⟩, some Mem.storeDown⟩],
           user := .undefined }) :=
  ⟨(getUserByIdHandler_total memory (forUid "") Mem.one .undefined).1 Mem.badPath rfl,
   (getUserByIdHandler_total memory (forUid "U9") Mem.one .undefined).2.1
      ⟨["users"], "U9"⟩ Mem.one rfl rfl,
   (getUserByIdHandler_total memory (forUid "U1") Mem.one .undefined).2.2.1
      ⟨["users"], "U1"⟩ [("email", .str "a@x.com")] Mem.one rfl rfl,
   (getUserByIdHandler_total memory (forUid "U1") Mem.down .undefined).2.2.2.1
      ⟨["users"], "U1"⟩ Mem.storeDown Mem.down rfl rfl⟩

/-! ## Edit profile -/

/-- Claim C2 (EditProfile, uid mismatch).  When re-authentication with
`currentEmail` / `currentPassword` succeeds with an account whose uid differs from
the path uid, `editUserDataHandler` returns 403 with success false, and the one
call it made is the re-authentication: no update-document, no update-email and
no update-password call, whatever email and password the payload carries; the
world is the one re-authentication left. -/
theorem editUserDataHandler_uid_mismatch {σ : Type} (c : Collaborators σ) (request : Request)
    (w : σ) (u : Val) (user : User) (w1 : σ)
    (hauth : c.signInWithEmailAndPassword request.payload.currentEmail
      request.payload.currentPassword w = (.ok user, w1))
    (hne : user.uid ≠ request.uid) :
    editUserDataHandler c request (St.start w u) =
      (.ok (.response (.obj [("success", .bool false),
          ("message", .str "You don't have permission to edit this account")]) 403),
       { world := w1,
         trace := [⟨.signInWithEmailAndPassword request.payload.currentEmail
           request.payload.currentPassword, none⟩],
         user := u }) := by
  simp [editUserDataHandler, Eff.tryCatch, Eff.call, St.start, faultOf, hauth, hne]

/-- Editing `U2` with the credentials of `U1`: the instance of `editUserDataHandler_uid_mismatch`. -/
theorem editUserDataHandler_uid_mismatch_witness :
    editUserDataHandler memory (editRequest "U2" (.str "n@x.com") (.str "secret9"))
        (St.start Mem.two .undefined) =
      (.ok (.response (.obj [("success", .bool false),
          ("message", .str "You don't have permission to edit this account")]) 403),
       { world := Mem.two,
         trace := [⟨.signInWithEmailAndPassword (.str "a@x.com") (.str "secret1"), none⟩],
         user := .undefined }) :=
  editUserDataHandler_uid_mismatch memory (editRequest "U2" (.str "n@x.com") (.str "secret9"))
    Mem.two .undefined ⟨"U1", .str "a@x.com"⟩ Mem.two rfl (by decide)

/-- Claim C6 fails on the account's email.  With an identity provider that keeps
addresses in lower case, the edit of `U1` to the supplied email `N@X.com` runs
without fault and returns 200; afterwards the Profile's email is `N@X.com` but the
Account's email is `n@x.com`, not the supplied one. -/
theorem editUserDataHandler_account_email_differs :
    (Val.str "N@X.com").truthy = true ∧
    lowerCase.signInWithEmailAndPassword (.str "a@x.com") (.str "secret1") Mem.one =
      (.ok ⟨"U1", .str "a@x.com"⟩, Mem.one) ∧
    editUserDataHandler lowerCase (editRequest "U1" (.str "N@X.com") .undefined)
        (St.start Mem.one .undefined) =
      (.ok (.response (.obj [("success", .bool true),
          ("message", .str "Profile updated successfully"),
          ("data", .obj [("uid", .str "U1"), ("email", .fn "isSignInWithEmailLink")])]) 200),
       { world := ⟨true, [⟨"U1", "n@x.com", "secret1"⟩],
           [(⟨["users"], "U1"⟩, [("email", .str "N@X.com")]),
            (⟨["users", "U1", "foods-history"], "K1"⟩, [("userID", .str "U1")])],
           ["U2", "K2"]⟩,
         trace := [⟨.signInWithEmailAndPassword (.str "a@x.com") (.str "secret1"), none⟩,
           ⟨.updateDoc ⟨["users"], "U1"⟩ (.obj [("email", .str "N@X.com")]), none⟩,
           ⟨.updateEmail ⟨"U1", .str "a@x.com"⟩ (.str "N@X.com"), none⟩],
         user := .undefined }) ∧
    Mem.accountEmail (editUserDataHandler lowerCase (editRequest "U1" (.str "N@X.com") .undefined)
        (St.start Mem.one .undefined)).2.world "U1" = some (.str "n@x.com") ∧
    Mem.accountEmail (editUserDataHandler lowerCase (editRequest "U1" (.str "N@X.com") .undefined)
        (St.start Mem.one .undefined)).2.world "U1" ≠ some (.str "N@X.com") :=
  ⟨rfl, rfl, rfl, rfl, by
    intro h
    have h1 : Mem.accountEmail (editUserDataHandler lowerCase
        (editRequest "U1" (.str "N@X.com") .undefined)
        (St.start Mem.one .undefined)).2.world "U1" = some (.str "n@x.com") := rfl
    rw [h1] at h
    injection h with h
    injection h with h
    exact absurd h (by decide)⟩

/-- Claim C6, amended (EditProfile, matching uid).  A new email or password
counts as supplied when the payload field is truthy, the test of `if (email)` and
`if (password)`.  Suppose re-authentication succeeds with an account whose uid is
the path uid, update-document of `users/<uid>` with `{email}` (email supplied) or
`{}` (not supplied) succeeds, update-email succeeds if an email was supplied, and
update-password succeeds if a password was supplied, each call starting in the
world the previous one left.  Then the handler returns 200, its calls are exactly
these, in this order (store update before every provider update, update-email iff
an email was supplied, update-password iff a password was supplied), and the
final world is the one the last of them left.  With a store that meets
`StoreContract`, the stored email afterwards is the new email if one was supplied
and the record is unchanged otherwise, and when an email was supplied a following
GetProfile of the same uid, whose reference is `users/<uid>` and whose read
succeeds, returns 200 with that email.  Nothing is claimed about the Account's
email. -/
theorem editUserDataHandler_matching {σ : Type} (c : Collaborators σ) (request : Request)
    (w : σ) (u : Val) (user : User) (w1 w2 w3 w4 : σ)
    (hauth : c.signInWithEmailAndPassword request.payload.currentEmail
      request.payload.currentPassword w = (.ok user, w1))
    (huid : user.uid = request.uid)
    (hstore : c.updateDoc ⟨["users"], request.uid⟩
      (.obj (if request.payload.email.truthy then [("email", request.payload.email)] else []))
      w1 = (.ok (), w2))
    (hemail : if request.payload.email.truthy then
        c.updateEmail user request.payload.email w2 = (.ok (), w3) else w3 = w2)
    (hpassword : if request.payload.password.truthy then
        c.updatePassword user request.payload.password w3 = (.ok (), w4) else w4 = w3) :
    editUserDataHandler c request (St.start w u) =
      (.ok (.response (.obj [("success", .bool true),
          ("message", .str "Profile updated successfully"),
          ("data", .obj [("uid", .str request.uid),
            ("email", .fn "isSignInWithEmailLink")])]) 200),
       { world := w4,
         trace :=
           [⟨.signInWithEmailAndPassword request.payload.currentEmail
              request.payload.currentPassword, none⟩,
            ⟨.updateDoc ⟨["users"], request.uid⟩
              (.obj (if request.payload.email.truthy then
                [("email", request.payload.email)] else [])), none⟩]
           ++ (if request.payload.email.truthy then
                [⟨.updateEmail user request.payload.email, none⟩] else [])
           ++ (if request.payload.password.truthy then
                [⟨.updatePassword user request.payload.password, none⟩] else []),
         user := u }) ∧
    ∀ profileOf : σ → DocRef → Option (List (String × Val)), StoreContract c profileOf →
      (if request.payload.email.truthy then
          ∃ new, profileOf w4 ⟨["users"], request.uid⟩ = some new ∧
            lookupField "email" new = request.payload.email
        else profileOf w4 ⟨["users"], request.uid⟩ = profileOf w ⟨["users"], request.uid⟩) ∧
      (request.payload.email.truthy →
        ∀ (later : Request) (u1 : Val), later.uid = request.uid →
          c.doc "users" request.uid = .ok ⟨["users"], request.uid⟩ →
          (∃ snap w5, c.getDoc ⟨["users"], request.uid⟩ w4 = (.ok snap, w5)) →
          (getUserByIdHandler c later (St.start w4 u1)).1 =
            .ok (.response (.obj [("success", .bool true),
              ("message", .str "Success fetching user data"),
              ("data", .obj [("uid", .str request.uid),
                ("email", request.payload.email)])]) 200)) := by
  constructor
  · cases hte : request.payload.email.truthy <;> cases htp : request.payload.password.truthy
    all_goals simp only [hte, htp, Bool.false_eq_true, if_true, if_false] at hstore hemail hpassword
    all_goals try subst hpassword
    all_goals try subst hemail
    all_goals first
      | simp [editUserDataHandler, Eff.tryCatch, Eff.call, St.start, faultOf, hauth, huid,
          doc, hstore, hemail, hpassword, hte, htp]
      | simp [editUserDataHandler, Eff.tryCatch, Eff.call, St.start, faultOf, hauth, huid,
          doc, hstore, hemail, hte, htp]
      | simp [editUserDataHandler, Eff.tryCatch, Eff.call, St.start, faultOf, hauth, huid,
          doc, hstore, hpassword, hte, htp]
      | simp [editUserDataHandler, Eff.tryCatch, Eff.call, St.start, faultOf, hauth, huid,
          doc, hstore, hte, htp]
  · intro profileOf hc
    have k1 := hc.signIn_keeps_store request.payload.currentEmail
      request.payload.currentPassword w ⟨["users"], request.uid⟩
    rw [hauth] at k1
    simp only at k1
    have k3 : profileOf w3 ⟨["users"], request.uid⟩ = profileOf w2 ⟨["users"], request.uid⟩ := by
      cases hte : request.payload.email.truthy
      · simp only [hte, Bool.false_eq_true, if_false] at hemail
        rw [hemail]
      · simp only [hte, if_true] at hemail
        have := hc.updateEmail_keeps_store user request.payload.email w2
          ⟨["users"], request.uid⟩
        rw [hemail] at this
        exact this
    have k4 : profileOf w4 ⟨["users"], request.uid⟩ = profileOf w3 ⟨["users"], request.uid⟩ := by
      cases htp : request.payload.password.truthy
      · simp only [htp, Bool.false_eq_true, if_false] at hpassword
        rw [hpassword]
      · simp only [htp, if_true] at hpassword
        have := hc.updatePassword_keeps_store user request.payload.password w3
          ⟨["users"], request.uid⟩
        rw [hpassword] at this
        exact this
    cases hte : request.payload.email.truthy
    · simp only [hte, Bool.false_eq_true, if_false] at hstore
      have h0 := hc.updateDoc_nothing _ _ _ hstore
      simp only [Bool.false_eq_true, if_false, false_implies, and_true]
      rw [k4, k3, h0, k1]
    · simp only [hte, if_true] at hstore
      obtain ⟨new, hnew, hl⟩ := hc.updateDoc_email _ _ _ _ hstore
      have hfin : profileOf w4 ⟨["users"], request.uid⟩ = some new := by
        rw [k4, k3, hnew]
      simp only [if_true, true_implies]
      refine ⟨⟨new, hfin, hl⟩, ?_⟩
      intro later u1 hlu hdoc ⟨snap, w5, hg⟩
      have hsnap := hc.getDoc_reads _ _ _ _ hg
      rw [hfin] at hsnap
      subst hsnap
      simp [getUserByIdHandler, Eff.tryCatch, Eff.resolve, Eff.call, St.start, hlu, hdoc, hg,
        hl]

/-- Changing the email and password of `U1` in the in-memory world: the instance of `editUserDataHandler_matching`. -/
theorem editUserDataHandler_matching_witness :
    editUserDataHandler memory (editRequest "U1" (.str "n@x.com") (.str "secret2"))
        (St.start Mem.one .undefined) =
      (.ok (.response (.obj [("success", .bool true),
          ("message", .str "Profile updated successfully"),
          ("data", .obj [("uid", .str "U1"), ("email", .fn "isSignInWithEmailLink")])]) 200),
       { world := ⟨true, [⟨"U1", "n@x.com", "secret2"⟩],
           [(⟨["users"], "U1"⟩, [("email", .str "n@x.com")]),
            (⟨["users", "U1", "foods-history"], "K1"⟩, [("userID", .str "U1")])],
           ["U2", "K2"]⟩,
         trace := [⟨.signInWithEmailAndPassword (.str "a@x.com") (.str "secret1"), none⟩,
           ⟨.updateDoc ⟨["users"], "U1"⟩ (.obj [("email", .str "n@x.com")]), none⟩,
           ⟨.updateEmail ⟨"U1", .str "a@x.com"⟩ (.str "n@x.com"), none⟩,
           ⟨.updatePassword ⟨"U1", .str "a@x.com"⟩ (.str "secret2"), none⟩],
         user := .undefined }) ∧
    (∃ new, Mem.profileOf ⟨true, [⟨"U1", "n@x.com", "secret2"⟩],
           [(⟨["users"], "U1"⟩, [("email", .str "n@x.com")]),
            (⟨["users", "U1", "foods-history"], "K1"⟩, [("userID", .str "U1")])],
           ["U2", "K2"]⟩ ⟨["users"], "U1"⟩ = some new ∧
        lookupField "email" new = .str "n@x.com") ∧
    (getUserByIdHandler memory (forUid "U1")
        (St.start ⟨true, [⟨"U1", "n@x.com", "secret2"⟩],
           [(⟨["users"], "U1"⟩, [("email", .str "n@x.com")]),
            (⟨["users", "U1", "foods-history"], "K1"⟩, [("userID", .str "U1")])],
           ["U2", "K2"]⟩ .undefined)).1 =
      .ok (.response (.obj [("success", .bool true),
        ("message", .str "Success fetching user data"),
        ("data", .obj [("uid", .str "U1"), ("email", .str "n@x.com")])]) 200) := by
  have h := editUserDataHandler_matching memory
    (editRequest "U1" (.str "n@x.com") (.str "secret2")) Mem.one .undefined
    ⟨"U1", .str "a@x.com"⟩ Mem.one
    ⟨true, [⟨"U1", "a@x.com", "secret1"⟩],
      [(⟨["users"], "U1"⟩, [("email", .str "n@x.com")]),
       (⟨["users", "U1", "foods-history"], "K1"⟩, [("userID", .str "U1")])], ["U2", "K2"]⟩
    ⟨true, [⟨"U1", "n@x.com", "secret1"⟩],
      [(⟨["users"], "U1"⟩, [("email", .str "n@x.com")]),
       (⟨["users", "U1", "foods-history"], "K1"⟩, [("userID", .str "U1")])], ["U2", "K2"]⟩
    ⟨true, [⟨"U1", "n@x.com", "secret2"⟩],
      [(⟨["users"], "U1"⟩, [("email", .str "n@x.com")]),
       (⟨["users", "U1", "foods-history"], "K1"⟩, [("userID", .str "U1")])], ["U2", "K2"]⟩
    rfl rfl rfl (Eq.mpr (if_pos rfl) rfl) (Eq.mpr (if_pos rfl) rfl)
  exact ⟨h.1, (h.2 Mem.profileOf memory_storeContract).1,
    (h.2 Mem.profileOf memory_storeContract).2 rfl (forUid "U1") .undefined rfl rfl
      ⟨_, _, rfl⟩⟩

/-- Claim C10 (EditProfile success response), evaluated on the edit of `U1` to
the new email `n@x.com`.  The response has status 200 and `data.uid` is the path
uid, but `data.email` is the function value `isSignInWithEmailLink`, not a
string, while the account's email after the edit, and the email GetProfile
returns, is `n@x.com`. -/
theorem editUserDataHandler_email_is_function :
    (editUserDataHandler memory (editRequest "U1" (.str "n@x.com") .undefined)
        (St.start Mem.one .undefined)).1 =
      .ok (.response (.obj [("success", .bool true),
        ("message", .str "Profile updated successfully"),
        ("data", .obj [("uid", .str "U1"), ("email", .fn "isSignInWithEmailLink")])]) 200) ∧
    (editUserDataHandler memory (editRequest "U1" (.str "n@x.com") .undefined)
        (St.start Mem.one .undefined)).1.toOption.map Reply.status = some (some 200) ∧
    (editUserDataHandler memory (editRequest "U1" (.str "n@x.com") .undefined)
        (St.start Mem.one .undefined)).1.toOption.map
          (fun reply => (reply.body.get "data").get "uid") = some (.str "U1") ∧
    (editUserDataHandler memory (editRequest "U1" (.str "n@x.com") .undefined)
        (St.start Mem.one .undefined)).1.toOption.map
          (fun reply => (reply.body.get "data").get "email") =
      some (.fn "isSignInWithEmailLink") ∧
    (editUserDataHandler memory (editRequest "U1" (.str "n@x.com") .undefined)
        (St.start Mem.one .undefined)).1.toOption.map
          (fun reply => ((reply.body.get "data").get "email").isString) = some false ∧
    Mem.accountEmail
        (editUserDataHandler memory (editRequest "U1" (.str "n@x.com") .undefined)
          (St.start Mem.one .undefined)).2.world "U1" = some (.str "n@x.com") ∧
    (getUserByIdHandler memory (forUid "U1")
        (St.start (editUserDataHandler memory (editRequest "U1" (.str "n@x.com") .undefined)
          (St.start Mem.one .undefined)).2.world .undefined)).1.toOption.map
          (fun reply => (reply.body.get "data").get "email") = some (.str "n@x.com") :=
  ⟨rfl, rfl, rfl, rfl, rfl, rfl, rfl⟩

/-! ## Reset password -/

/-- Claim C8 (ResetPassword).  If send-reset-email completes without fault,
`resetPasswordHandler` returns 200 with success true and data `{email: <payload
email>}`; if it raises a fault with code `auth/user-not-found` the handler returns
404 with success false; any other fault is re-raised unmodified.  In every case
the handler makes exactly one call, the send-reset-email call: no store call. -/
theorem resetPasswordHandler_outcome {σ : Type} (c : Collaborators σ) (request : Request)
    (w : σ) (u : Val) :
    (∀ w1, c.sendPasswordResetEmail request.payload.email w = (.ok (), w1) →
      resetPasswordHandler c request (St.start w u) =
        (.ok (.response (.obj [("success", .bool true),
            ("message", .str "We have sent email to reset your password"),
            ("data", .obj [("email", request.payload.email)])]) 200),
         { world := w1, trace := [⟨.sendPasswordResetEmail request.payload.email, none⟩],
           user := u })) ∧
    (∀ e w1, c.sendPasswordResetEmail request.payload.email w = (.error e, w1) →
      e.code = some "auth/user-not-found" →
      resetPasswordHandler c request (St.start w u) =
        (.ok (.response (.obj [("success", .bool false),
            ("message", .str "User not found")]) 404),
         { world := w1, trace := [⟨.sendPasswordResetEmail request.payload.email, some e⟩],
           user := u })) ∧
    (∀ e w1, c.sendPasswordResetEmail request.payload.email w = (.error e, w1) →
      e.code ≠ some "auth/user-not-found" →
      resetPasswordHandler c request (St.start w u) =
        (.error e,
         { world := w1, trace := [⟨.sendPasswordResetEmail request.payload.email, some e⟩],
           user := u })) ∧
    calls (resetPasswordHandler c request (St.start w u)) =
      [.sendPasswordResetEmail request.payload.email] := by
  rcases h : c.sendPasswordResetEmail request.payload.email w with ⟨r, w1⟩
  cases r with
  | error e =>
    by_cases hc : e.code = some "auth/user-not-found"
    · simp [resetPasswordHandler, Eff.tryCatch, Eff.call, St.start, faultOf, h, calls, hc]
    · simp [resetPasswordHandler, Eff.tryCatch, Eff.call, St.start, faultOf, h, calls, hc,
        Eff.throw]
  | ok _ =>
    simp [resetPasswordHandler, Eff.tryCatch, Eff.call, St.start, faultOf, h, calls]

/-- Resetting a known email, an unknown email, and resetting while the provider is unreachable: the instances of `resetPasswordHandler_outcome`. -/
theorem resetPasswordHandler_outcome_witness :
    resetPasswordHandler memory (credentials "a@x.com" "") (St.start Mem.one .undefined) =
        (.ok (.response (.obj [("success", .bool true),
            ("message", .str "We have sent email to reset your password"),
            ("data", .obj [("email", .str "a@x.com")])]) 200),
         { world := Mem.one, trace := [⟨.sendPasswordResetEmail (.str "a@x.com"), none⟩],
           user := .undefined }) ∧
    resetPasswordHandler memory (credentials "z@x.com" "") (St.start Mem.one .undefined) =
        (.ok (.response (.obj [("success", .bool false),
            ("message", .str "User not found")]) 404),
         { world := Mem.one,
           trace := [⟨.sendPasswordResetEmail (.str "z@x.com"),
             some (.thrown (some "auth/user-not-found") "no such user")⟩],
           user := .undefined }) ∧
    resetPasswordHandler memory (credentials "a@x.com" "") (St.start Mem.down .undefined) =
        (.error Mem.authDown,
         { world := Mem.down,
           trace := [⟨.sendPasswordResetEmail (.str "a@x.com"), some Mem.authDown⟩],
           user := .undefined }) :=
  ⟨(resetPasswordHandler_outcome memory (credentials "a@x.com" "") Mem.one .undefined).1
      Mem.one rfl,
   (resetPasswordHandler_outcome memory (credentials "z@x.com" "") Mem.one .undefined).2.1
      (.thrown (some "auth/user-not-found") "no such user") Mem.one rfl rfl,
   (resetPasswordHandler_outcome memory (credentials "a@x.com" "") Mem.down .undefined).2.2.1
      Mem.authDown Mem.down rfl (by decide)⟩

/-! ## The fault policy -/

/-- Claim C9 fails for Logout.  With the provider unreachable, sign-out raises a
fault; `logoutHandler` does not re-raise it but returns the normal response 400
`Something went wrong`.  So GetProfile is not the only operation that turns every
fault into a response. -/
theorem logoutHandler_swallows_fault :
    memory.signOut Mem.down = (.error Mem.authDown, Mem.down) ∧
    raised (logoutHandler memory (forUid "") (St.start Mem.down .undefined)) Mem.authDown ∧
    logoutHandler memory (forUid "") (St.start Mem.down .undefined) =
      (.ok (.response (.obj [("success", .bool false),
          ("message", .str "Something went wrong")]) 400),
       { world := Mem.down, trace := [⟨.signOut, some Mem.authDown⟩], user := .undefined }) ∧
    (logoutHandler memory (forUid "") (St.start Mem.down .undefined)).1 ≠ .error Mem.authDown :=
  ⟨rfl, ⟨⟨.signOut, some Mem.authDown⟩, List.Mem.head _, rfl⟩, rfl, by
    intro h
    cases h⟩

/-- Claim C9, amended (fault policy).  For a fault `e` raised by a call of the
run: Register, Login, EditProfile and ResetPassword re-raise `e` unmodified when
its code is not one the operation maps (`auth/email-already-in-use` for Register;
`auth/user-not-found` and `auth/wrong-password` for Login; `auth/user-not-found`
for EditProfile and for ResetPassword); VerifyToken raises Unauthorized (401,
`Invalid token`) in its place; Logout returns the response 400 and GetProfile the
response 500, neither propagating a fault. -/
theorem fault_policy {σ : Type} (c : Collaborators σ) (request : Request)
    (w : σ) (u : Val) (e : Fault) :
    (raised (registerHandler c request (St.start w u)) e →
      e.code ≠ some "auth/email-already-in-use" →
      (registerHandler c request (St.start w u)).1 = .error e) ∧
    (raised (loginHandler c request (St.start w u)) e →
      e.code ≠ some "auth/user-not-found" → e.code ≠ some "auth/wrong-password" →
      (loginHandler c request (St.start w u)).1 = .error e) ∧
    (raised (editUserDataHandler c request (St.start w u)) e →
      e.code ≠ some "auth/user-not-found" →
      (editUserDataHandler c request (St.start w u)).1 = .error e) ∧
    (raised (resetPasswordHandler c request (St.start w u)) e →
      e.code ≠ some "auth/user-not-found" →
      (resetPasswordHandler c request (St.start w u)).1 = .error e) ∧
    (raised (verifyTokenHandler c request (St.start w u)) e →
      (verifyTokenHandler c request (St.start w u)).1 = .error (.boom 401 "Invalid token")) ∧
    (raised (logoutHandler c request (St.start w u)) e →
      (logoutHandler c request (St.start w u)).1 =
        .ok (.response (.obj [("success", .bool false),
          ("message", .str "Something went wrong")]) 400)) ∧
    (raised (getUserByIdHandler c request (St.start w u)) e →
      (getUserByIdHandler c request (St.start w u)).1 =
        .ok (.response (.obj [("success", .bool false),
          ("message", .str "Error fetching user data")]) 500)) :=
  ⟨registerHandler_raised c request w u e,
   fun hr => (loginHandler_raised c request w u e hr).2.2,
   editUserDataHandler_raised c request w u e,
   resetPasswordHandler_raised c request w u e,
   verifyTokenHandler_raised c request w u e,
   logoutHandler_raised c request w u e,
   getUserByIdHandler_raised c request w u e⟩

/-- One faulting run of each of the seven handlers: the instances of `fault_policy`. -/
theorem fault_policy_witness :
    (registerHandler memory (credentials "a@x.com" "secret1")
        (St.start Mem.down .undefined)).1 = .error Mem.authDown ∧
    (loginHandler memory (credentials "a@x.com" "secret1")
        (St.start Mem.down .undefined)).1 = .error Mem.authDown ∧
    (editUserDataHandler memory (editRequest "U1" (.str "n@x.com") .undefined)
        (St.start Mem.orphan .undefined)).1 =
      .error (.thrown (some "not-found") "no document to update") ∧
    (resetPasswordHandler memory (credentials "a@x.com" "")
        (St.start Mem.down .undefined)).1 = .error Mem.authDown ∧
    (verifyTokenHandler memory (bearer (.str "expired")) (St.start Mem.one .undefined)).1 =
      .error (.boom 401 "Invalid token") ∧
    (logoutHandler memory (forUid "") (St.start Mem.down .undefined)).1 =
      .ok (.response (.obj [("success", .bool false),
        ("message", .str "Something went wrong")]) 400) ∧
    (getUserByIdHandler memory (forUid "U1") (St.start Mem.down .undefined)).1 =
      .ok (.response (.obj [("success", .bool false),
        ("message", .str "Error fetching user data")]) 500) :=
  ⟨(fault_policy memory (credentials "a@x.com" "secret1") Mem.down .undefined Mem.authDown).1
      ⟨⟨.createUserWithEmailAndPassword (.str "a@x.com") (.str "secret1"), some Mem.authDown⟩,
        List.Mem.head _, rfl⟩ (by decide),
   (fault_policy memory (credentials "a@x.com" "secret1") Mem.down .undefined
      Mem.authDown).2.1
      ⟨⟨.signInWithEmailAndPassword (.str "a@x.com") (.str "secret1"), some Mem.authDown⟩,
        List.Mem.head _, rfl⟩ (by decide) (by decide),
   (fault_policy memory (editRequest "U1" (.str "n@x.com") .undefined) Mem.orphan .undefined
      (.thrown (some "not-found") "no document to update")).2.2.1
      ⟨⟨.updateDoc ⟨["users"], "U1"⟩ (.obj [("email", .str "n@x.com")]),
        some (.thrown (some "not-found") "no document to update")⟩,
        List.Mem.tail _ (List.Mem.head _), rfl⟩ (by decide),
   (fault_policy memory (credentials "a@x.com" "") Mem.down .undefined Mem.authDown).2.2.2.1
      ⟨⟨.sendPasswordResetEmail (.str "a@x.com"), some Mem.authDown⟩,
        List.Mem.head _, rfl⟩ (by decide),
   (fault_policy memory (bearer (.str "expired")) Mem.one .undefined
      (.thrown (some "auth/argument-error") "bad token")).2.2.2.2.1
      ⟨⟨.verifyIdToken (.str "expired"),
        some (.thrown (some "auth/argument-error") "bad token")⟩, List.Mem.head _, rfl⟩,
   (fault_policy memory (forUid "") Mem.down .undefined Mem.authDown).2.2.2.2.2.1
      ⟨⟨.signOut, some Mem.authDown⟩, List.Mem.head _, rfl⟩,
   (fault_policy memory (forUid "U1") Mem.down .undefined Mem.storeDown).2.2.2.2.2.2
      ⟨⟨.getDoc ⟨["users"], "U1"⟩, some Mem.storeDown⟩, List.Mem.head _, rfl⟩⟩

end Trackori
